import Mathlib

/-!
# udma: zero-copy DMA to and from user space

A shallow embedding of `src/udma.c` / `src/udma.h`: the transfer lifecycle
(`udma_prepare_for_dma`, `udma_unprepare_after_dma`,
`udma_dmaengine_callback_func`, `udma_read`, `udma_write`).

Conventions of the embedding

* C machine integers are natural numbers or integers with explicit wrap-around:
  `unsigned int` is reduced modulo `2^32`, `size_t` / `unsigned long` modulo
  `2^SIZE_BITS`.
* Kernel services (allocation, pinning, mapping, the DMA engine, semaphores,
  the wait queue) are not part of the repository.  Their return values are
  inputs of the model (`Platform`, `CallEnv`); the calls the driver makes
  are recorded, in program order, in a list of `Ev`.
* A page is named by its index `i` in the `pinned_pages` array: the event
  `Ev.put_page i` stands for `put_page(pinned_pages[i])`.
* `BUG_ON` firing is modelled by the result `none`.
-/

namespace Udma

/-! ## Constants -/

/-- Constants the driver takes from its build environment: the kernel's
`PAGE_SIZE`, the width in bits of `size_t` / `unsigned long` / `ssize_t`, and
`UDMA_ALIGN_BYTES` of `udma.h`. -/
structure Config where
  PAGE_SIZE : Nat
  SIZE_BITS : Nat
  UDMA_ALIGN_BYTES : Nat
deriving DecidableEq

/-- The configuration of `udma.h` (`UDMA_ALIGN_BYTES (1)`) on a 32-bit kernel with 4 KiB pages. -/
def zynq : Config := { PAGE_SIZE := 4096, SIZE_BITS := 32, UDMA_ALIGN_BYTES := 1 }

/-- Linux errno `EBADF`. -/
def EBADF : Int := 9
/-- Linux errno `ENOMEM`. -/
def ENOMEM : Int := 12
/-- Linux errno `EINVAL`. -/
def EINVAL : Int := 22
/-- Linux errno `ERESTARTSYS`. -/
def ERESTARTSYS : Int := 512
/-- Smallest valid cookie of `dmaengine_submit` (`DMA_MIN_COOKIE` of the kernel's dmaengine.h). -/
def DMA_MIN_COOKIE : Int := 1

/-- `enum udma_dir`: `UDMA_DEV_TO_CPU = 1` (RX). -/
def UDMA_DEV_TO_CPU : Nat := 1
/-- `enum udma_dir`: `UDMA_CPU_TO_DEV = 2` (TX). -/
def UDMA_CPU_TO_DEV : Nat := 2

/-! ## Machine arithmetic -/

/-- Conversion of a non-negative value to `unsigned int`. -/
def to_uint (x : Nat) : Nat := x % 4294967296

/-- Conversion of an `int` to `unsigned int` (as in the comparison `rv != num_pages`). -/
def int_to_uint (x : Int) : Nat := (x % 4294967296).toNat

/-- Reduction to the range of `size_t`. -/
def to_size (c : Config) (x : Nat) : Nat := x % 2 ^ c.SIZE_BITS

/-- Subtraction in `size_t`: `a - b` with wrap-around. -/
def size_sub (c : Config) (a b : Nat) : Nat :=
  (a % 2 ^ c.SIZE_BITS + 2 ^ c.SIZE_BITS - b % 2 ^ c.SIZE_BITS) % 2 ^ c.SIZE_BITS

/-- Conversion of a `size_t` to `ssize_t` (`ssize_t rv = count;`). -/
def to_ssize (c : Config) (x : Nat) : Int :=
  if 2 * (x % 2 ^ c.SIZE_BITS) < 2 ^ c.SIZE_BITS then ((x % 2 ^ c.SIZE_BITS : Nat) : Int)
  else ((x % 2 ^ c.SIZE_BITS : Nat) : Int) - ((2 ^ c.SIZE_BITS : Nat) : Int)

/-- The kernel's `offset_in_page(p)`: the offset of address `p` inside its page. -/
def offset_in_page (c : Config) (p : Nat) : Nat := p % c.PAGE_SIZE

/-! ## Data model (`udma.h`) -/

/-- `enum dma_fsm_state`. -/
inductive dma_fsm_state where
  | DMA_IDLE
  | DMA_IN_FLIGHT
  | DMA_COMPLETING
deriving DecidableEq

open dma_fsm_state

/-- One entry of the scatter-gather table as written by `sg_set_page(sg, page, len, offset)`;
`page` is the index of the page in `pinned_pages`. -/
structure scatterlist where
  page : Nat
  length : Nat
  offset : Nat
deriving DecidableEq

/-- `struct udma_inflight_info`.  `pinned_pages` is `true` iff the pointer is non-NULL;
`table` holds the entries of `table.sgl`. -/
structure udma_inflight_info where
  pinned_pages : Bool
  table : List scatterlist
  num_pages : Nat
  table_allocated : Bool
  pages_pinned : Bool
  dma_mapped : Bool
  dma_started : Bool
deriving DecidableEq

/-- The fields of `struct udma_drvdata` that the transfer path reads or writes. -/
structure udma_drvdata where
  dir : Nat
  accepting : Int
  state : dma_fsm_state
  inflight : udma_inflight_info
  packets_sent : Int
  packets_rcvd : Int
deriving DecidableEq

/-- Calls into the kernel made by the driver, recorded in program order. -/
inductive Ev where
  | kmalloc (n : Nat)
  | sg_alloc_table (nents : Nat)
  | get_user_pages_fast (start : Nat) (nr_pages : Nat) (write : Bool) (ret : Int)
  | dma_map_sg (nents : Nat) (from_device : Bool) (ret : Int)
  | dmaengine_prep_slave_sg (nents : Nat) (from_device : Bool)
  | dmaengine_submit (cookie : Int)
  | dma_async_issue_pending
  | dma_unmap_sg (nents : Nat) (from_device : Bool)
  | set_page_dirty (i : Nat)
  | put_page (i : Nat)
  | sg_free_table
  | kfree
  | dmaengine_terminate_all
  | wake_up_interruptible
  | down_interruptible (ret : Int)
  | down_timeout (ret : Int)
  | up
  | wait_event_interruptible (ret : Int)
deriving DecidableEq

/-- Return values of the kernel services called by `udma_prepare_for_dma`. -/
structure Platform where
  kmalloc_ok : Bool
  sg_alloc_table_rv : Int
  get_user_pages_fast_rv : Int
  dma_map_sg_rv : Int
  prep_slave_sg_ok : Bool
  cookie : Int
deriving DecidableEq

/-- What surrounds one `udma_read` / `udma_write` call: the results of the semaphore
operations, the platform, whether the completion callback runs between the submission and
the state check after the wait, and the result of `wait_event_interruptible`. -/
structure CallEnv where
  down_interruptible_rv : Int
  hw : Platform
  callback_fired : Bool
  wait_rv : Int
  down_timeout_rv : Int
deriving DecidableEq

/-- Result of a driver function: the session afterwards, the returned value, the calls made. -/
structure Outcome where
  p_info : udma_drvdata
  rv : Int
  trace : List Ev
deriving DecidableEq

/-! ## Scatter-gather build loop (`udma_prepare_for_dma`, "Build scatterlist") -/

/-- The page count of `udma_prepare_for_dma`:
`(offset_in_page(userbuf) + count + PAGE_SIZE-1) / PAGE_SIZE`, computed in `unsigned long` and
stored in the `unsigned int` field `num_pages`. -/
def num_pages_of (c : Config) (userbuf count : Nat) : Nat :=
  to_uint (to_size c (offset_in_page c userbuf + count + c.PAGE_SIZE - 1) / c.PAGE_SIZE)

/-- The body of the `for_each_sg` loop, iterated: `n` entries remain, `i` is the loop index,
`left_to_map` the `size_t` counter. -/
def build_loop (c : Config) (userbuf : Nat) : Nat → Nat → Nat → List scatterlist
  | 0, _, _ => []
  | n + 1, i, left_to_map =>
    let len0 := to_uint (if left_to_map > c.PAGE_SIZE then c.PAGE_SIZE else left_to_map)
    let offset := if i = 0 then to_uint (offset_in_page c userbuf) else 0
    let len :=
      if i = 0 then
        (if to_uint (offset + len0) > c.PAGE_SIZE then to_uint (c.PAGE_SIZE - offset) else len0)
      else len0
    { page := i, length := len, offset := offset }
      :: build_loop c userbuf n (i + 1) (size_sub c left_to_map len)

/-- The scatterlist built for a request: the loop run over `num_pages` entries from `i = 0`
with `left_to_map = count`. -/
def build_scatterlist (c : Config) (userbuf count : Nat) : List scatterlist :=
  build_loop c userbuf (num_pages_of c userbuf count) 0 count

/-! ## Teardown, completion callback, setup -/

/-- The direction passed to the DMA mapping calls:
`p_info->dir == UDMA_DEV_TO_CPU ? DMA_FROM_DEVICE : DMA_TO_DEVICE`; `true` is `DMA_FROM_DEVICE`. -/
def from_device (p_info : udma_drvdata) : Bool := p_info.dir == UDMA_DEV_TO_CPU

/-- The calls of the page loop of `udma_unprepare_after_dma`:
`set_page_dirty(page); put_page(page);` for `i = 0 .. num_pages-1`. -/
def dirty_and_put (num_pages : Nat) : List Ev :=
  (List.range num_pages).flatMap (fun i => [Ev.set_page_dirty i, Ev.put_page i])

/-- The function `udma_unprepare_after_dma`: the session afterwards and the release calls made. -/
def udma_unprepare_after_dma (p_info : udma_drvdata) : udma_drvdata × List Ev :=
  let inf := p_info.inflight
  let unmap : List Ev :=
    if inf.dma_mapped then [Ev.dma_unmap_sg inf.num_pages (from_device p_info)] else []
  let puts : List Ev :=
    if inf.pages_pinned then
      (if inf.dma_started && p_info.dir == UDMA_DEV_TO_CPU then dirty_and_put inf.num_pages
       else [])
    else []
  let free_table : List Ev := if inf.table_allocated then [Ev.sg_free_table] else []
  let free_pages : List Ev := if inf.pinned_pages then [Ev.kfree] else []
  ({ p_info with
      state := DMA_IDLE
      inflight :=
        { inf with
          dma_mapped := false
          pages_pinned := false
          table := if inf.table_allocated then [] else inf.table
          table_allocated := false
          pinned_pages := false } },
   unmap ++ puts ++ free_table ++ free_pages)

/-- The function `udma_dmaengine_callback_func`: the completion notification. -/
def udma_dmaengine_callback_func (p_info : udma_drvdata) : udma_drvdata × List Ev :=
  if p_info.state = DMA_IN_FLIGHT then
    ({ p_info with state := DMA_COMPLETING }, [Ev.wake_up_interruptible])
  else (p_info, [])

/-- The `err_out` exit of `udma_prepare_for_dma`: teardown, then `return rv`. -/
def err_out (p_info : udma_drvdata) (rv : Int) (trace : List Ev) : Outcome :=
  let r := udma_unprepare_after_dma p_info
  { p_info := r.1, rv := rv, trace := trace ++ r.2 }

/-- The descriptor after `memset(&p_info->inflight, 0, ...)`. -/
def zero_inflight : udma_inflight_info :=
  { pinned_pages := false, table := [], num_pages := 0, table_allocated := false,
    pages_pinned := false, dma_mapped := false, dma_started := false }

/-- The function `udma_prepare_for_dma`.  `none` is the `BUG_ON` at its top. -/
def udma_prepare_for_dma (c : Config) (hw : Platform) (p_info : udma_drvdata)
    (userbuf count : Nat) : Option Outcome :=
  if p_info.inflight.pinned_pages then none
  else
    let num_pages := num_pages_of c userbuf count
    let s0 : udma_drvdata := { p_info with inflight := { zero_inflight with num_pages := num_pages } }
    let t0 : List Ev := [Ev.kmalloc num_pages]
    if !hw.kmalloc_ok then some (err_out s0 (-ENOMEM) t0)
    else
      let s1 : udma_drvdata := { s0 with inflight := { s0.inflight with pinned_pages := true } }
      let t1 := t0 ++ [Ev.sg_alloc_table num_pages]
      if hw.sg_alloc_table_rv ≠ 0 then some (err_out s1 hw.sg_alloc_table_rv t1)
      else
        let s2 : udma_drvdata :=
          { s1 with inflight := { s1.inflight with
              table := List.replicate num_pages { page := 0, length := 0, offset := 0 }
              table_allocated := true } }
        let t2 := t1 ++ [Ev.get_user_pages_fast userbuf num_pages (from_device p_info)
                          hw.get_user_pages_fast_rv]
        if int_to_uint hw.get_user_pages_fast_rv ≠ num_pages then
          some (err_out s2 hw.get_user_pages_fast_rv t2)
        else
          let s3 : udma_drvdata :=
            { s2 with inflight := { s2.inflight with
                pages_pinned := true
                table := build_loop c userbuf num_pages 0 count } }
          let t3 := t2 ++ [Ev.dma_map_sg num_pages (from_device p_info) hw.dma_map_sg_rv]
          if int_to_uint hw.dma_map_sg_rv ≠ num_pages then
            some (err_out s3 hw.dma_map_sg_rv t3)
          else
            let s4 : udma_drvdata := { s3 with inflight := { s3.inflight with dma_mapped := true } }
            let t4 := t3 ++ [Ev.dmaengine_prep_slave_sg num_pages (from_device p_info)]
            if !hw.prep_slave_sg_ok then some (err_out s4 (-ENOMEM) t4)
            else
              let t5 := t4 ++ [Ev.dmaengine_submit hw.cookie]
              if hw.cookie < DMA_MIN_COOKIE then
                some (err_out { s4 with state := DMA_IDLE } hw.cookie t5)
              else
                some { p_info :=
                         { s4 with
                           state := DMA_IN_FLIGHT
                           inflight := { s4.inflight with dma_started := true } }
                       rv := 0
                       trace := t5 ++ [Ev.dma_async_issue_pending] }

/-! ## The entry points `udma_read` and `udma_write` -/

/-- The state of the session when the caller takes `state_lock` after the wait: the
completion callback has run in between iff `callback_fired`. -/
def after_wait (env : CallEnv) (p_info : udma_drvdata) : udma_drvdata × List Ev :=
  if env.callback_fired then udma_dmaengine_callback_func p_info else (p_info, [])

/-- The function `udma_read` (the live body, on the receive session `udma_rx_drvdata`).
The live body assigns and returns `rv` without declaring it; `rv_init` is the value `rv`
holds on entry. -/
def udma_read (c : Config) (env : CallEnv) (rv_init : Int) (udma_rx_drvdata : udma_drvdata)
    (userbuf count : Nat) : Option Outcome :=
  if 0 ≠ count % c.UDMA_ALIGN_BYTES then
    some { p_info := udma_rx_drvdata, rv := -EINVAL, trace := [] }
  else if env.down_interruptible_rv ≠ 0 then
    some { p_info := udma_rx_drvdata, rv := -ERESTARTSYS,
           trace := [Ev.down_interruptible env.down_interruptible_rv] }
  else
    let t0 : List Ev := [Ev.down_interruptible env.down_interruptible_rv]
    if udma_rx_drvdata.accepting = 0 then
      some { p_info := udma_rx_drvdata, rv := -EBADF, trace := t0 ++ [Ev.up] }
    else
      match udma_prepare_for_dma c env.hw udma_rx_drvdata userbuf count with
      | none => none
      | some prep =>
        if prep.rv ≠ 0 then
          some { p_info := prep.p_info, rv := prep.rv, trace := t0 ++ prep.trace ++ [Ev.up] }
        else
          let w := after_wait env prep.p_info
          let t1 := t0 ++ prep.trace ++ [Ev.up] ++ w.2 ++
            [Ev.wait_event_interruptible env.wait_rv, Ev.down_timeout env.down_timeout_rv]
          if env.down_timeout_rv ≠ 0 then
            some { p_info := w.1, rv := rv_init, trace := t1 }
          else
            let cancel : Bool := w.1.state = DMA_IN_FLIGHT ∧ -ERESTARTSYS = env.wait_rv
            let rv := if cancel then env.wait_rv else rv_init
            let t2 := if cancel then t1 ++ [Ev.dmaengine_terminate_all] else t1
            let u := udma_unprepare_after_dma w.1
            some { p_info := u.1, rv := rv, trace := t2 ++ u.2 ++ [Ev.up] }

/-- The function `udma_write` (on the transmit session `udma_tx_drvdata`); `rv` starts as
`count` converted to `ssize_t`. -/
def udma_write (c : Config) (env : CallEnv) (udma_tx_drvdata : udma_drvdata)
    (userbuf count : Nat) : Option Outcome :=
  let rv_init : Int := to_ssize c count
  if 0 ≠ count % c.UDMA_ALIGN_BYTES then
    some { p_info := udma_tx_drvdata, rv := -EINVAL, trace := [] }
  else if env.down_interruptible_rv ≠ 0 then
    some { p_info := udma_tx_drvdata, rv := -ERESTARTSYS,
           trace := [Ev.down_interruptible env.down_interruptible_rv] }
  else
    let t0 : List Ev := [Ev.down_interruptible env.down_interruptible_rv]
    if udma_tx_drvdata.accepting = 0 then
      some { p_info := udma_tx_drvdata, rv := -EBADF, trace := t0 ++ [Ev.up] }
    else
      match udma_prepare_for_dma c env.hw udma_tx_drvdata userbuf count with
      | none => none
      | some prep =>
        if prep.rv ≠ 0 then
          some { p_info := prep.p_info, rv := prep.rv, trace := t0 ++ prep.trace ++ [Ev.up] }
        else
          let w := after_wait env prep.p_info
          let t1 := t0 ++ prep.trace ++ [Ev.up] ++ w.2 ++
            [Ev.wait_event_interruptible env.wait_rv, Ev.down_timeout env.down_timeout_rv]
          if env.down_timeout_rv ≠ 0 then
            some { p_info := w.1, rv := rv_init, trace := t1 }
          else
            let cancel : Bool := w.1.state = DMA_IN_FLIGHT ∧ -ERESTARTSYS = env.wait_rv
            let rv := if cancel then env.wait_rv else rv_init
            let t2 := if cancel then t1 ++ [Ev.dmaengine_terminate_all] else t1
            let u := udma_unprepare_after_dma w.1
            some { p_info := u.1, rv := rv, trace := t2 ++ u.2 ++ [Ev.up] }

/-- A session as `udma_init` leaves it (`state = DMA_IDLE`, counters zero, descriptor zeroed
by the allocation), with the given direction, and accepting requests. -/
def init_session (dir : Nat) : udma_drvdata :=
  { dir := dir, accepting := 1, state := DMA_IDLE, inflight := zero_inflight,
    packets_sent := 0, packets_rcvd := 0 }

/-- A platform on which every service succeeds for a request of `n` pages. -/
def hw_ok (n : Nat) : Platform :=
  { kmalloc_ok := true, sg_alloc_table_rv := 0, get_user_pages_fast_rv := n,
    dma_map_sg_rv := n, prep_slave_sg_ok := true, cookie := 1 }

/-- A call in which every service succeeds and the completion callback ends the wait. -/
def env_ok (n : Nat) : CallEnv :=
  { down_interruptible_rv := 0, hw := hw_ok n, callback_fired := true, wait_rv := 0,
    down_timeout_rv := 0 }

/-! ## Specification of the fragment list -/

/-- The fragment of page `k` as the specification words it: the part of the byte range
`[off, off + count)` (addresses relative to the start of the first page) that lies in page `k`,
i.e. from `max off (k * PAGE_SIZE)` up to `min (off + count) ((k + 1) * PAGE_SIZE)`. -/
def spec_fragment (c : Config) (off count k : Nat) : scatterlist :=
  { page := k
    length := min (off + count) ((k + 1) * c.PAGE_SIZE) - max off (k * c.PAGE_SIZE)
    offset := max off (k * c.PAGE_SIZE) - k * c.PAGE_SIZE }

/-- The sum of the fragment lengths of a scatterlist. -/
def total_length (sg : List scatterlist) : Nat := (sg.map scatterlist.length).sum

/-! ## Two callers of one session and the completion callback -/

/-- Program points of a caller inside `udma_read` / `udma_write`:
`entry` before `down_interruptible`; `holding` with the semaphore taken, before the test of
`accepting`; `at_prepare` about to enter `udma_prepare_for_dma`; `prepared` after it returned 0,
before `up`; `waiting` inside `wait_event_interruptible`; `woken` after the wait returned,
before `down_timeout`; `retaken` with the semaphore re-taken, before the state check and
teardown; `out` at the label `out`, before the final `up`; `returned`. -/
inductive Pc where
  | entry
  | holding
  | at_prepare
  | prepared
  | waiting
  | woken (wait_rv : Int)
  | retaken (wait_rv : Int)
  | out
  | returned
deriving DecidableEq

/-- The session shared by two callers: the count of the semaphore `sem`, the session data,
and the program point of each caller. -/
structure Sys where
  sem : Nat
  p_info : udma_drvdata
  pc0 : Pc
  pc1 : Pc
deriving DecidableEq

/-- The program point of caller `t` (`false` is the first caller, `true` the second). -/
def Sys.pc (s : Sys) (t : Bool) : Pc := if t then s.pc1 else s.pc0

/-- Move caller `t` to program point `q`. -/
def Sys.goto (s : Sys) (t : Bool) (q : Pc) : Sys :=
  if t then { s with pc1 := q } else { s with pc0 := q }

/-- The atomic steps: those of a caller `t`, and the completion callback. -/
inductive Step where
  | down_interruptible (t : Bool)
  | test_accepting (t : Bool)
  | prepare (t : Bool) (hw : Platform) (userbuf count : Nat)
  | up_before_wait (t : Bool)
  | wake (t : Bool) (wait_rv : Int)
  | down_timeout (t : Bool)
  | stall (t : Bool)
  | teardown (t : Bool)
  | up_out (t : Bool)
  | callback
deriving DecidableEq

/-- One step of the interleaved system; `none` when the step is not enabled in `s`, or when
the `BUG_ON` of `udma_prepare_for_dma` fires. -/
def step (c : Config) (s : Sys) : Step → Option Sys
  | Step.down_interruptible t =>
    if s.pc t = Pc.entry ∧ 0 < s.sem then some ({ s with sem := s.sem - 1 }.goto t Pc.holding)
    else none
  | Step.test_accepting t =>
    if s.pc t = Pc.holding then
      some (s.goto t (if s.p_info.accepting = 0 then Pc.out else Pc.at_prepare))
    else none
  | Step.prepare t hw userbuf count =>
    if s.pc t = Pc.at_prepare then
      match udma_prepare_for_dma c hw s.p_info userbuf count with
      | none => none
      | some r => some ({ s with p_info := r.p_info }.goto t (if r.rv ≠ 0 then Pc.out else Pc.prepared))
    else none
  | Step.up_before_wait t =>
    if s.pc t = Pc.prepared then some ({ s with sem := s.sem + 1 }.goto t Pc.waiting) else none
  | Step.wake t wait_rv =>
    if s.pc t = Pc.waiting ∧
        ((wait_rv = 0 ∧ s.p_info.state ≠ DMA_IN_FLIGHT) ∨ wait_rv = -ERESTARTSYS) then
      some (s.goto t (Pc.woken wait_rv))
    else none
  | Step.down_timeout t =>
    match s.pc t with
    | Pc.woken wait_rv =>
      if 0 < s.sem then some ({ s with sem := s.sem - 1 }.goto t (Pc.retaken wait_rv)) else none
    | _ => none
  | Step.stall t =>
    match s.pc t with
    | Pc.woken _ => if s.sem = 0 then some (s.goto t Pc.returned) else none
    | _ => none
  | Step.teardown t =>
    match s.pc t with
    | Pc.retaken _ => some ({ s with p_info := (udma_unprepare_after_dma s.p_info).1 }.goto t Pc.out)
    | _ => none
  | Step.up_out t =>
    if s.pc t = Pc.out then some ({ s with sem := s.sem + 1 }.goto t Pc.returned) else none
  | Step.callback =>
    some { s with p_info := (udma_dmaengine_callback_func s.p_info).1 }

/-- Run a schedule (a list of steps) from a state. -/
def run (c : Config) : Sys → List Step → Option Sys
  | s, [] => some s
  | s, a :: rest =>
    match step c s a with
    | none => none
    | some s1 => run c s1 rest

/-- The initial state: `sema_init(&sem, 1)`, an idle session, both callers at `entry`. -/
def sys_init (dir : Nat) : Sys :=
  { sem := 1, p_info := init_session dir, pc0 := Pc.entry, pc1 := Pc.entry }

/-- A caller is about to enter `udma_prepare_for_dma` while a transfer is pending. -/
def enters_while_pending (s : Sys) : Prop :=
  (s.pc0 = Pc.at_prepare ∨ s.pc1 = Pc.at_prepare) ∧
  (s.p_info.state ≠ DMA_IDLE ∨ s.p_info.inflight.pinned_pages = true)

instance (s : Sys) : Decidable (enters_while_pending s) := by
  unfold enters_while_pending
  exact inferInstance

/-- The schedule in which the first caller submits a one-page transfer and sleeps in the
wait, and the second caller then takes the semaphore and reaches `udma_prepare_for_dma`. -/
def overlap_schedule : List Step :=
  [Step.down_interruptible false, Step.test_accepting false,
   Step.prepare false (hw_ok 1) 0 4096, Step.up_before_wait false,
   Step.down_interruptible true, Step.test_accepting true]

/-- A `Config` with 4 KiB pages, 32-bit `size_t` and an alignment of 4 bytes. -/
def word_aligned : Config := { PAGE_SIZE := 4096, SIZE_BITS := 32, UDMA_ALIGN_BYTES := 4 }

/-- A call in which every service succeeds, the hardware never completes, and the call
fails to re-take the semaphore after a signal ended the wait (`down_timeout` returns
`-ETIME`). -/
def env_stall (n : Nat) : CallEnv :=
  { down_interruptible_rv := 0, hw := hw_ok n, callback_fired := false,
    wait_rv := -ERESTARTSYS, down_timeout_rv := -62 }

/-- A call in which every service succeeds, the hardware never completes, and a signal ends
the wait; the semaphore is then re-taken. -/
def env_signal (n : Nat) : CallEnv :=
  { down_interruptible_rv := 0, hw := hw_ok n, callback_fired := false,
    wait_rv := -ERESTARTSYS, down_timeout_rv := 0 }

/-! ## Sequences of lifecycle operations -/

/-- Every service called by `udma_prepare_for_dma` succeeds for this request: both
allocations, the pin and the mapping of all `num_pages` pages, the descriptor preparation
and the submission. -/
def setup_succeeds (c : Config) (hw : Platform) (userbuf count : Nat) : Prop :=
  hw.kmalloc_ok = true ∧ hw.sg_alloc_table_rv = 0 ∧
  int_to_uint hw.get_user_pages_fast_rv = num_pages_of c userbuf count ∧
  int_to_uint hw.dma_map_sg_rv = num_pages_of c userbuf count ∧
  hw.prep_slave_sg_ok = true ∧ ¬ hw.cookie < DMA_MIN_COOKIE

/-- The lifecycle operations on a session: `udma_prepare_for_dma` (with the platform's
answers and the request), `udma_dmaengine_callback_func`, `udma_unprepare_after_dma`. -/
inductive Op where
  | prepare (hw : Platform) (userbuf count : Nat)
  | callback
  | unprepare
deriving DecidableEq

/-- The session after one operation has returned; `none` when `udma_prepare_for_dma` stops at
its `BUG_ON` and does not return. -/
def apply_op (c : Config) (s : udma_drvdata) : Op → Option udma_drvdata
  | Op.prepare hw userbuf count => (udma_prepare_for_dma c hw s userbuf count).map (fun r => r.p_info)
  | Op.callback => some (udma_dmaengine_callback_func s).1
  | Op.unprepare => some (udma_unprepare_after_dma s).1

/-- The session after a sequence of operations, each run after the previous one returned. -/
def run_ops (c : Config) : udma_drvdata → List Op → Option udma_drvdata
  | s, [] => some s
  | s, op :: rest =>
    match apply_op c s op with
    | none => none
    | some s1 => run_ops c s1 rest

/-- The invariant of the session: `inflight.pinned_pages` is non-NULL iff the state is
`DMA_IN_FLIGHT` or `DMA_COMPLETING`. -/
def descriptor_invariant (s : udma_drvdata) : Prop :=
  s.inflight.pinned_pages = true ↔ (s.state = DMA_IN_FLIGHT ∨ s.state = DMA_COMPLETING)

/-- A session whose `accepting` flag has been cleared, otherwise as `udma_init` leaves it. -/
def closed_session (dir : Nat) : udma_drvdata := { init_session dir with accepting := 0 }

/-- A sequence of operations: a setup whose submission is rejected, a setup that succeeds, and
the completion notification. -/
def lifecycle_ops : List Op :=
  [Op.prepare { hw_ok 1 with cookie := 0 } 0 4096, Op.prepare (hw_ok 1) 0 4096, Op.callback]

/-! ## Arithmetic lemmas -/

theorem to_uint_of_lt {x : Nat} (h : x < 4294967296) : to_uint x = x := by
  unfold to_uint
  exact Nat.mod_eq_of_lt h

theorem to_size_of_lt (c : Config) {x : Nat} (h : x < 2 ^ c.SIZE_BITS) : to_size c x = x := by
  unfold to_size
  exact Nat.mod_eq_of_lt h

theorem size_sub_of_le (c : Config) {a b : Nat} (hb : b ≤ a) (ha : a < 2 ^ c.SIZE_BITS) :
    size_sub c a b = a - b := by
  unfold size_sub
  have hb2 : b < 2 ^ c.SIZE_BITS := lt_of_le_of_lt hb ha
  rw [Nat.mod_eq_of_lt ha, Nat.mod_eq_of_lt hb2]
  have h1 : a + 2 ^ c.SIZE_BITS - b = (a - b) + 2 ^ c.SIZE_BITS := by omega
  rw [h1, Nat.add_mod_right]
  exact Nat.mod_eq_of_lt (by omega)

/-- Without wrap-around the page count is the rounded-up quotient. -/
theorem num_pages_of_eq (c : Config) (userbuf count : Nat)
    (hsz : offset_in_page c userbuf + count + c.PAGE_SIZE - 1 < 2 ^ c.SIZE_BITS)
    (hn : (offset_in_page c userbuf + count + c.PAGE_SIZE - 1) / c.PAGE_SIZE < 2 ^ 31) :
    num_pages_of c userbuf count
      = (offset_in_page c userbuf + count + c.PAGE_SIZE - 1) / c.PAGE_SIZE := by
  unfold num_pages_of
  rw [to_size_of_lt c hsz]
  apply to_uint_of_lt
  have : (2 : Nat) ^ 31 < 4294967296 := by norm_num
  omega

/-- The rounded-up quotient `n` is characterised by `T ≤ n * P < T + P`. -/
theorem ceil_bounds (T P : Nat) (hP : 0 < P) :
    T ≤ (T + P - 1) / P * P ∧ (T + P - 1) / P * P < T + P := by
  have h1 := Nat.div_add_mod (T + P - 1) P
  have h2 := Nat.mod_lt (T + P - 1) hP
  have h3 : P * ((T + P - 1) / P) = (T + P - 1) / P * P := Nat.mul_comm _ _
  constructor <;> omega

/-- The loop from index `i ≥ 1` on, without wrap-around, writes the specified fragments. -/
theorem build_loop_tail (c : Config) (userbuf count : Nat)
    (hP : 0 < c.PAGE_SIZE) (hP2 : c.PAGE_SIZE ≤ 2 ^ 31)
    (hcount : count < 2 ^ c.SIZE_BITS) :
    ∀ (n i : Nat), 0 < i →
      offset_in_page c userbuf + count ≤ (i + n) * c.PAGE_SIZE →
      build_loop c userbuf n i (offset_in_page c userbuf + count - i * c.PAGE_SIZE)
        = (List.range' i n).map (spec_fragment c (offset_in_page c userbuf) count) := by
  intro n
  have hoff : offset_in_page c userbuf < c.PAGE_SIZE := Nat.mod_lt _ hP
  have hP3 : (2 : Nat) ^ 31 = 2147483648 := by norm_num
  induction n with
  | zero => intro i _ _; simp [build_loop]
  | succ n ih =>
    intro i hi hT
    have hmul : (i + 1) * c.PAGE_SIZE = i * c.PAGE_SIZE + c.PAGE_SIZE := by ring
    have hmul2 : (i + (n + 1)) * c.PAGE_SIZE = (i + 1 + n) * c.PAGE_SIZE := by ring
    have hle : c.PAGE_SIZE ≤ i * c.PAGE_SIZE := Nat.le_mul_of_pos_left _ hi
    have ih2 := ih (i + 1) (by omega) (by rw [← hmul2]; exact hT)
    have hi0 : i ≠ 0 := by omega
    rw [List.range'_succ, List.map_cons]
    simp only [build_loop, hi0, if_false]
    by_cases hgt : offset_in_page c userbuf + count - i * c.PAGE_SIZE > c.PAGE_SIZE
    · simp only [hgt, if_true]
      rw [to_uint_of_lt (by omega), size_sub_of_le c (by omega) (by omega)]
      have e1 : offset_in_page c userbuf + count - i * c.PAGE_SIZE - c.PAGE_SIZE
          = offset_in_page c userbuf + count - (i + 1) * c.PAGE_SIZE := by omega
      rw [e1, ih2]
      congr 1
      simp only [spec_fragment, scatterlist.mk.injEq, true_and]
      constructor <;> omega
    · simp only [hgt, if_false]
      rw [to_uint_of_lt (by omega), size_sub_of_le c (le_refl _) (by omega)]
      have e1 : offset_in_page c userbuf + count - i * c.PAGE_SIZE
            - (offset_in_page c userbuf + count - i * c.PAGE_SIZE)
          = offset_in_page c userbuf + count - (i + 1) * c.PAGE_SIZE := by omega
      rw [e1, ih2]
      congr 1
      simp only [spec_fragment, scatterlist.mk.injEq, true_and]
      constructor <;> omega

/-- Closed form of the build loop: without wrap-around the scatterlist is, page by page,
the specified fragment list. -/
theorem build_scatterlist_eq_spec (c : Config) (userbuf count : Nat)
    (hP : 0 < c.PAGE_SIZE) (hP2 : c.PAGE_SIZE ≤ 2 ^ 31)
    (hsz : offset_in_page c userbuf + count + c.PAGE_SIZE - 1 < 2 ^ c.SIZE_BITS)
    (hn : (offset_in_page c userbuf + count + c.PAGE_SIZE - 1) / c.PAGE_SIZE < 2 ^ 31) :
    build_scatterlist c userbuf count
      = (List.range (num_pages_of c userbuf count)).map
          (spec_fragment c (offset_in_page c userbuf) count) := by
  have hoff : offset_in_page c userbuf < c.PAGE_SIZE := Nat.mod_lt _ hP
  have hP3 : (2 : Nat) ^ 31 = 2147483648 := by norm_num
  have hcount : count < 2 ^ c.SIZE_BITS := by omega
  have hb := ceil_bounds (offset_in_page c userbuf + count) c.PAGE_SIZE hP
  unfold build_scatterlist
  rw [num_pages_of_eq c userbuf count hsz hn]
  generalize hN : (offset_in_page c userbuf + count + c.PAGE_SIZE - 1) / c.PAGE_SIZE = N at hb
  cases N with
  | zero => simp [build_loop]
  | succ m =>
    have hmul : (m + 1) * c.PAGE_SIZE = m * c.PAGE_SIZE + c.PAGE_SIZE := by ring
    have hmul1 : (1 + m) * c.PAGE_SIZE = m * c.PAGE_SIZE + c.PAGE_SIZE := by ring
    have h1 : (1 : Nat) * c.PAGE_SIZE = c.PAGE_SIZE := Nat.one_mul _
    have h0 : (0 : Nat) * c.PAGE_SIZE = 0 := Nat.zero_mul _
    have h01 : (0 + 1) * c.PAGE_SIZE = c.PAGE_SIZE := by simp
    have ht := build_loop_tail c userbuf count hP hP2 hcount m 1 (by omega) (by omega)
    rw [h1] at ht
    rw [List.range_eq_range', List.range'_succ, List.map_cons]
    simp only [build_loop, if_true]
    rw [to_uint_of_lt (show offset_in_page c userbuf < 4294967296 by omega)]
    by_cases hgt : count > c.PAGE_SIZE
    · simp only [hgt, if_true]
      rw [to_uint_of_lt (show c.PAGE_SIZE < 4294967296 by omega),
        to_uint_of_lt (show offset_in_page c userbuf + c.PAGE_SIZE < 4294967296 by omega),
        to_uint_of_lt (show c.PAGE_SIZE - offset_in_page c userbuf < 4294967296 by omega)]
      by_cases ho : offset_in_page c userbuf + c.PAGE_SIZE > c.PAGE_SIZE
      · simp only [ho, if_true]
        rw [size_sub_of_le c (by omega) hcount]
        have e1 : count - (c.PAGE_SIZE - offset_in_page c userbuf)
            = offset_in_page c userbuf + count - c.PAGE_SIZE := by omega
        rw [e1, ht]
        congr 1
        simp only [spec_fragment, scatterlist.mk.injEq, true_and, h0, h01]
        constructor <;> omega
      · simp only [ho, if_false]
        rw [size_sub_of_le c (by omega) hcount]
        have e1 : count - c.PAGE_SIZE
            = offset_in_page c userbuf + count - c.PAGE_SIZE := by omega
        rw [e1, ht]
        congr 1
        simp only [spec_fragment, scatterlist.mk.injEq, true_and, h0, h01]
        constructor <;> omega
    · simp only [hgt, if_false]
      rw [to_uint_of_lt (show count < 4294967296 by omega),
        to_uint_of_lt (show offset_in_page c userbuf + count < 4294967296 by omega),
        to_uint_of_lt (show c.PAGE_SIZE - offset_in_page c userbuf < 4294967296 by omega)]
      by_cases ho : offset_in_page c userbuf + count > c.PAGE_SIZE
      · simp only [ho, if_true]
        rw [size_sub_of_le c (by omega) hcount]
        have e1 : count - (c.PAGE_SIZE - offset_in_page c userbuf)
            = offset_in_page c userbuf + count - c.PAGE_SIZE := by omega
        rw [e1, ht]
        congr 1
        simp only [spec_fragment, scatterlist.mk.injEq, true_and, h0, h01]
        constructor <;> omega
      · simp only [ho, if_false]
        rw [size_sub_of_le c (le_refl _) hcount]
        have e1 : count - count
            = offset_in_page c userbuf + count - c.PAGE_SIZE := by omega
        rw [e1, ht]
        congr 1
        simp only [spec_fragment, scatterlist.mk.injEq, true_and, h0, h01]
        constructor <;> omega

/-- The lengths of the specified fragments of pages `0 .. n-1` add up to the part of the
byte range that lies below `n * PAGE_SIZE`. -/
theorem spec_total_length (c : Config) (off count : Nat) (hoff : off < c.PAGE_SIZE) :
    ∀ n : Nat,
      total_length ((List.range n).map (spec_fragment c off count))
        = min (off + count) (max off (n * c.PAGE_SIZE)) - off := by
  intro n
  induction n with
  | zero => simp [total_length]
  | succ n ih =>
    have hmul : (n + 1) * c.PAGE_SIZE = n * c.PAGE_SIZE + c.PAGE_SIZE := by ring
    unfold total_length at ih ⊢
    rw [List.range_succ, List.map_append, List.map_append, List.sum_append, ih]
    simp only [List.map_cons, List.map_nil, List.sum_cons, List.sum_nil, spec_fragment,
      Nat.add_zero]
    omega

/-- Reading entry `i` of a list of the form `(List.range n).map f`. -/
theorem getElem?_map_range {α : Type} (f : Nat → α) (n i : Nat) (e : α)
    (h : ((List.range n).map f)[i]? = some e) : i < n ∧ e = f i := by
  by_cases hi : i < n
  · rw [List.getElem?_map, List.getElem?_range hi] at h
    simp only [Option.map_some', Option.some.injEq] at h
    exact ⟨hi, h.symm⟩
  · have hlen : ((List.range n).map f).length ≤ i := by simp; omega
    rw [List.getElem?_eq_none hlen] at h
    cases h

/-! ## Claims on the scatter-gather builder -/

/-- C1 (counterexample): on a 32-bit kernel with 4 KiB pages, the byte count
`4294967295` (a valid `size_t`) at page offset 0 makes the page-count sum wrap around; no
fragment is written, so the fragment lengths sum to 0 and not to the byte count. -/
theorem C1_wrap_counterexample :
    4294967295 < 2 ^ zynq.SIZE_BITS ∧ offset_in_page zynq 0 < zynq.PAGE_SIZE ∧
    build_scatterlist zynq 0 4294967295 = [] ∧
    total_length (build_scatterlist zynq 0 4294967295) ≠ 4294967295 := by
  decide

/-- C1 (amended): when the page-count computation does not wrap around (the sum
`offset + count + PAGE_SIZE - 1` fits `size_t` and the page count fits `int`; `PAGE_SIZE` is
positive and at most `2^31`), the fragments written by the build loop cover exactly the
contiguous byte range: fragment `k` is the part of the range that lies in page `k`; there is
one fragment per pinned page, in page order; the lengths sum to `count`; fragment 0 begins at the start offset; every later fragment begins at offset 0 of
the next page, and the fragment before it ends exactly at the end of its page. -/
theorem C1_round_trip (c : Config) (userbuf count : Nat)
    (hP : 0 < c.PAGE_SIZE) (hP2 : c.PAGE_SIZE ≤ 2 ^ 31)
    (hsz : offset_in_page c userbuf + count + c.PAGE_SIZE - 1 < 2 ^ c.SIZE_BITS)
    (hn : (offset_in_page c userbuf + count + c.PAGE_SIZE - 1) / c.PAGE_SIZE < 2 ^ 31) :
    build_scatterlist c userbuf count
      = (List.range (num_pages_of c userbuf count)).map
          (spec_fragment c (offset_in_page c userbuf) count) ∧
    (build_scatterlist c userbuf count).length = num_pages_of c userbuf count ∧
    total_length (build_scatterlist c userbuf count) = count ∧
    (∀ (i : Nat) (e : scatterlist), (build_scatterlist c userbuf count)[i]? = some e → e.page = i) ∧
    (∀ e : scatterlist, (build_scatterlist c userbuf count)[0]? = some e →
      e.offset = offset_in_page c userbuf) ∧
    (∀ (i : Nat) (e e' : scatterlist), (build_scatterlist c userbuf count)[i]? = some e →
      (build_scatterlist c userbuf count)[i + 1]? = some e' →
      e'.offset = 0 ∧ e.offset + e.length = c.PAGE_SIZE) := by
  have hoff : offset_in_page c userbuf < c.PAGE_SIZE := Nat.mod_lt _ hP
  have hb := ceil_bounds (offset_in_page c userbuf + count) c.PAGE_SIZE hP
  rw [← num_pages_of_eq c userbuf count hsz hn] at hb
  rw [build_scatterlist_eq_spec c userbuf count hP hP2 hsz hn]
  refine ⟨rfl, by simp, ?_, ?_, ?_, ?_⟩
  · rw [spec_total_length c _ count hoff]
    omega
  · intro i e h
    obtain ⟨_, rfl⟩ := getElem?_map_range _ _ _ _ h
    rfl
  · intro e h
    obtain ⟨_, rfl⟩ := getElem?_map_range _ _ _ _ h
    simp [spec_fragment]
  · intro i e e' h h'
    obtain ⟨_, rfl⟩ := getElem?_map_range _ _ _ _ h
    obtain ⟨hi', rfl⟩ := getElem?_map_range _ _ _ _ h'
    have hmul : (i + 1) * c.PAGE_SIZE = i * c.PAGE_SIZE + c.PAGE_SIZE := by ring
    have hmul2 : (i + 1 + 1) * c.PAGE_SIZE = i * c.PAGE_SIZE + c.PAGE_SIZE + c.PAGE_SIZE := by
      ring
    have hle : (i + 1 + 1) * c.PAGE_SIZE ≤ num_pages_of c userbuf count * c.PAGE_SIZE :=
      Nat.mul_le_mul_right _ hi'
    simp only [spec_fragment]
    constructor <;> omega

/-- C1 (witness): the amended round trip at offset 20, count 4100, 4 KiB pages. -/
theorem C1_round_trip_witness :
    (0 < zynq.PAGE_SIZE ∧ zynq.PAGE_SIZE ≤ 2 ^ 31 ∧
      offset_in_page zynq 20 + 4100 + zynq.PAGE_SIZE - 1 < 2 ^ zynq.SIZE_BITS ∧
      (offset_in_page zynq 20 + 4100 + zynq.PAGE_SIZE - 1) / zynq.PAGE_SIZE < 2 ^ 31) ∧
    total_length (build_scatterlist zynq 20 4100) = 4100 :=
  ⟨by decide,
   (C1_round_trip zynq 20 4100 (by decide) (by decide) (by decide) (by decide)).2.2.1⟩

/-- C2 (counterexample): on a 32-bit kernel with 4 KiB pages, offset 20 and byte count
`4294967290` give `num_pages = 1`, not the rounded-up quotient 1048577, and the only (hence
last) fragment has length 4076, not the remaining byte count. -/
theorem C2_wrap_counterexample :
    4294967290 < 2 ^ zynq.SIZE_BITS ∧ offset_in_page zynq 20 = 20 ∧
    num_pages_of zynq 20 4294967290 = 1 ∧
    (20 + 4294967290 + zynq.PAGE_SIZE - 1) / zynq.PAGE_SIZE = 1048577 ∧
    build_scatterlist zynq 20 4294967290 = [{ page := 0, length := 4076, offset := 20 }] := by
  decide

/-- C2 (amended): when the page-count computation does not wrap around (the sum
`offset + count + PAGE_SIZE - 1` fits `size_t` and the page count fits `int`; `PAGE_SIZE` is
positive and at most `2^31`), `num_pages` is the rounded-up quotient of `off + count` by
`PAGE_SIZE` and exactly that many fragments are built; fragment 0 has offset `off` and length
`min count (PAGE_SIZE - off)`; every later fragment has offset 0; every fragment that is
neither first nor last has length `PAGE_SIZE`; the last fragment has the byte count that
remains after the earlier ones; `offset + length ≤ PAGE_SIZE` for every fragment.  With
`off = 20`, `count = 4100`, `PAGE_SIZE = 4096` the fragments are (offset 20, length 4076) and
(offset 0, length 24). -/
theorem C2_fragment_shape (c : Config) (userbuf count : Nat)
    (hP : 0 < c.PAGE_SIZE) (hP2 : c.PAGE_SIZE ≤ 2 ^ 31)
    (hsz : offset_in_page c userbuf + count + c.PAGE_SIZE - 1 < 2 ^ c.SIZE_BITS)
    (hn : (offset_in_page c userbuf + count + c.PAGE_SIZE - 1) / c.PAGE_SIZE < 2 ^ 31) :
    (offset_in_page c userbuf + count ≤ num_pages_of c userbuf count * c.PAGE_SIZE ∧
      num_pages_of c userbuf count * c.PAGE_SIZE
        < offset_in_page c userbuf + count + c.PAGE_SIZE) ∧
    (build_scatterlist c userbuf count).length = num_pages_of c userbuf count ∧
    (∀ e : scatterlist, (build_scatterlist c userbuf count)[0]? = some e →
      e.offset = offset_in_page c userbuf ∧
      e.length = min count (c.PAGE_SIZE - offset_in_page c userbuf)) ∧
    (∀ (i : Nat) (e : scatterlist), 0 < i →
      (build_scatterlist c userbuf count)[i]? = some e → e.offset = 0) ∧
    (∀ (i : Nat) (e : scatterlist), 0 < i → i + 1 < num_pages_of c userbuf count →
      (build_scatterlist c userbuf count)[i]? = some e → e.length = c.PAGE_SIZE) ∧
    (∀ e : scatterlist,
      (build_scatterlist c userbuf count)[num_pages_of c userbuf count - 1]? = some e →
      total_length ((build_scatterlist c userbuf count).take (num_pages_of c userbuf count - 1))
        + e.length = count) ∧
    (∀ e ∈ build_scatterlist c userbuf count, e.offset + e.length ≤ c.PAGE_SIZE) ∧
    (zynq.PAGE_SIZE = 4096 ∧ offset_in_page zynq 20 = 20 ∧
      build_scatterlist zynq 20 4100
        = [{ page := 0, length := 4076, offset := 20 }, { page := 1, length := 24, offset := 0 }])
    := by
  have hoff : offset_in_page c userbuf < c.PAGE_SIZE := Nat.mod_lt _ hP
  have hb := ceil_bounds (offset_in_page c userbuf + count) c.PAGE_SIZE hP
  rw [← num_pages_of_eq c userbuf count hsz hn] at hb
  rw [build_scatterlist_eq_spec c userbuf count hP hP2 hsz hn]
  refine ⟨hb, by simp, ?_, ?_, ?_, ?_, ?_, by decide⟩
  · intro e h
    obtain ⟨_, rfl⟩ := getElem?_map_range _ _ _ _ h
    simp only [spec_fragment]
    constructor <;> omega
  · intro i e hi h
    obtain ⟨_, rfl⟩ := getElem?_map_range _ _ _ _ h
    have hle : c.PAGE_SIZE ≤ i * c.PAGE_SIZE := Nat.le_mul_of_pos_left _ hi
    simp only [spec_fragment]
    omega
  · intro i e hi hlast h
    obtain ⟨_, rfl⟩ := getElem?_map_range _ _ _ _ h
    have hle : c.PAGE_SIZE ≤ i * c.PAGE_SIZE := Nat.le_mul_of_pos_left _ hi
    have hmul : (i + 1) * c.PAGE_SIZE = i * c.PAGE_SIZE + c.PAGE_SIZE := by ring
    have hmul2 : (i + 1 + 1) * c.PAGE_SIZE = i * c.PAGE_SIZE + c.PAGE_SIZE + c.PAGE_SIZE := by
      ring
    have hle2 : (i + 1 + 1) * c.PAGE_SIZE ≤ num_pages_of c userbuf count * c.PAGE_SIZE :=
      Nat.mul_le_mul_right _ hlast
    simp only [spec_fragment]
    omega
  · intro e h
    obtain ⟨hlt, rfl⟩ := getElem?_map_range _ _ _ _ h
    rw [← List.map_take, List.take_range, spec_total_length c _ count hoff]
    have hmin : min (num_pages_of c userbuf count - 1) (num_pages_of c userbuf count)
        = num_pages_of c userbuf count - 1 := by omega
    rw [hmin]
    have hmul : (num_pages_of c userbuf count - 1 + 1) * c.PAGE_SIZE
        = (num_pages_of c userbuf count - 1) * c.PAGE_SIZE + c.PAGE_SIZE := by ring
    have hn1 : num_pages_of c userbuf count - 1 + 1 = num_pages_of c userbuf count := by omega
    rw [hn1] at hmul
    simp only [spec_fragment, hn1]
    omega
  · intro e he
    rw [List.mem_map] at he
    obtain ⟨k, _, rfl⟩ := he
    have hmul : (k + 1) * c.PAGE_SIZE = k * c.PAGE_SIZE + c.PAGE_SIZE := by ring
    simp only [spec_fragment]
    omega

/-- C2 (witness): the amended shape at offset 20, count 4100, 4 KiB pages. -/
theorem C2_fragment_shape_witness :
    (0 < zynq.PAGE_SIZE ∧ zynq.PAGE_SIZE ≤ 2 ^ 31 ∧
      offset_in_page zynq 20 + 4100 + zynq.PAGE_SIZE - 1 < 2 ^ zynq.SIZE_BITS ∧
      (offset_in_page zynq 20 + 4100 + zynq.PAGE_SIZE - 1) / zynq.PAGE_SIZE < 2 ^ 31) ∧
    (build_scatterlist zynq 20 4100).length = num_pages_of zynq 20 4100 :=
  ⟨by decide,
   (C2_fragment_shape zynq 20 4100 (by decide) (by decide) (by decide) (by decide)).2.1⟩

/-! ## Claims on the transfer lifecycle -/

/-- C3 (violated by the code): from the initial state, after the first caller has submitted a
one-page transfer and released the semaphore to wait, the second caller takes the semaphore
and stands at the entry of `udma_prepare_for_dma` while the state is `DMA_IN_FLIGHT` and
`pinned_pages` is non-NULL; its next step hits the `BUG_ON`. -/
theorem C3_second_caller_enters_while_in_flight :
    (run zynq (sys_init UDMA_CPU_TO_DEV) overlap_schedule).map
        (fun s => (s.pc0, s.pc1, s.sem)) = some (Pc.waiting, Pc.at_prepare, 0) ∧
    (run zynq (sys_init UDMA_CPU_TO_DEV) overlap_schedule).map
        (fun s => (s.p_info.state, s.p_info.inflight.pinned_pages))
      = some (DMA_IN_FLIGHT, true) ∧
    (run zynq (sys_init UDMA_CPU_TO_DEV) overlap_schedule).map
        (fun s => (decide (enters_while_pending s),
          (udma_prepare_for_dma zynq (hw_ok 1) s.p_info 0 4096).isNone))
      = some (true, true) := by
  decide

/-- C4 (violated by the code): three requests after which a pinned page has never been
released.  (1) A transmit of one page that completes normally: page 0 is pinned, the call
returns 4096, no `put_page` is made.  (2) A receive whose mapping fails: page 0 is pinned, no
`put_page` is made.  (3) A receive of two pages of which only one is pinned: no `put_page` is
made.  In all three the session is back to `DMA_IDLE` with `pinned_pages` freed. -/
theorem C4_pinned_pages_not_released :
    (udma_write zynq (env_ok 1) (init_session UDMA_CPU_TO_DEV) 0 4096).map
        (fun r => (r.rv, decide (Ev.get_user_pages_fast 0 1 false 1 ∈ r.trace),
          r.trace.count (Ev.put_page 0), r.p_info.state, r.p_info.inflight.pinned_pages))
      = some (4096, true, 0, DMA_IDLE, false) ∧
    (udma_read zynq { env_ok 1 with hw := { hw_ok 1 with dma_map_sg_rv := 0 } } 4096
          (init_session UDMA_DEV_TO_CPU) 0 4096).map
        (fun r => (decide (Ev.get_user_pages_fast 0 1 true 1 ∈ r.trace),
          r.trace.count (Ev.put_page 0), r.p_info.state, r.p_info.inflight.pinned_pages))
      = some (true, 0, DMA_IDLE, false) ∧
    (udma_read zynq { env_ok 2 with hw := { hw_ok 2 with get_user_pages_fast_rv := 1 } } 8192
          (init_session UDMA_DEV_TO_CPU) 0 8192).map
        (fun r => (decide (Ev.get_user_pages_fast 0 2 true 1 ∈ r.trace),
          r.trace.count (Ev.put_page 0), r.p_info.state, r.p_info.inflight.pinned_pages))
      = some (true, 0, DMA_IDLE, false) := by
  decide

/-- C5 (violated by the code): `udma_prepare_for_dma` returns the short platform result itself.
For a one-page request it returns 0 when `get_user_pages_fast` returns 0, and 0 when `dma_map_sg`
returns 0; for a two-page request of which one page is pinned it returns 1.  `udma_write` then
returns the byte count 4096 in the first two cases and `udma_read` returns 1 in the third. -/
theorem C5_short_result_not_a_failure :
    (udma_prepare_for_dma zynq { hw_ok 1 with get_user_pages_fast_rv := 0 }
        (init_session UDMA_CPU_TO_DEV) 0 4096).map (fun r => r.rv) = some 0 ∧
    (udma_prepare_for_dma zynq { hw_ok 1 with dma_map_sg_rv := 0 }
        (init_session UDMA_CPU_TO_DEV) 0 4096).map (fun r => r.rv) = some 0 ∧
    (udma_prepare_for_dma zynq { hw_ok 2 with get_user_pages_fast_rv := 1 }
        (init_session UDMA_DEV_TO_CPU) 0 8192).map (fun r => r.rv) = some 1 ∧
    (udma_write zynq
        { env_ok 1 with hw := { hw_ok 1 with get_user_pages_fast_rv := 0 }, callback_fired := false }
        (init_session UDMA_CPU_TO_DEV) 0 4096).map (fun r => r.rv) = some 4096 ∧
    (udma_write zynq
        { env_ok 1 with hw := { hw_ok 1 with dma_map_sg_rv := 0 }, callback_fired := false }
        (init_session UDMA_CPU_TO_DEV) 0 4096).map (fun r => r.rv) = some 4096 ∧
    (udma_read zynq { env_ok 2 with hw := { hw_ok 2 with get_user_pages_fast_rv := 1 } } 8192
        (init_session UDMA_DEV_TO_CPU) 0 8192).map (fun r => r.rv) = some 1 := by
  decide

/-- C6: teardown is idempotent.  For every session, running `udma_unprepare_after_dma` a second
time leaves the session as the first run left it and makes no release call; and on any
session whose descriptor has `pinned_pages = NULL` and the flags `table_allocated`,
`pages_pinned`, `dma_mapped` clear (no step succeeded), it makes no release call. -/
theorem C6_teardown_idempotent (p_info : udma_drvdata) :
    udma_unprepare_after_dma (udma_unprepare_after_dma p_info).1
      = ((udma_unprepare_after_dma p_info).1, []) ∧
    (∀ (dir : Nat) (accepting : Int) (state : dma_fsm_state) (table : List scatterlist)
        (num_pages : Nat) (dma_started : Bool) (packets_sent packets_rcvd : Int),
      (udma_unprepare_after_dma
        { dir := dir, accepting := accepting, state := state,
          inflight := { pinned_pages := false, table := table, num_pages := num_pages,
                        table_allocated := false, pages_pinned := false, dma_mapped := false,
                        dma_started := dma_started },
          packets_sent := packets_sent, packets_rcvd := packets_rcvd }).2 = []) := by
  constructor
  · simp [udma_unprepare_after_dma]
  · intros
    simp [udma_unprepare_after_dma]

/-! ## Lemmas on `udma_read` and `udma_write` -/

/-- The body of `udma_write` is the body of `udma_read` with `rv` initialised to `count`. -/
theorem udma_write_eq_read (c : Config) (env : CallEnv) (s : udma_drvdata)
    (userbuf count : Nat) :
    udma_write c env s userbuf count = udma_read c env (to_ssize c count) s userbuf count :=
  rfl

/-- The release calls of the teardown contain no `dmaengine_terminate_all`. -/
theorem unprepare_trace_no_terminate (p_info : udma_drvdata) :
    Ev.dmaengine_terminate_all ∉ (udma_unprepare_after_dma p_info).2 := by
  simp only [udma_unprepare_after_dma, dirty_and_put]
  split_ifs <;> simp

/-- The completion callback makes no `dmaengine_terminate_all` call. -/
theorem after_wait_trace_no_terminate (env : CallEnv) (p_info : udma_drvdata) :
    Ev.dmaengine_terminate_all ∉ (after_wait env p_info).2 := by
  simp only [after_wait, udma_dmaengine_callback_func]
  split_ifs <;> simp

/-- The teardown does not touch the packet counters. -/
theorem unprepare_counters (p_info : udma_drvdata) :
    (udma_unprepare_after_dma p_info).1.packets_sent = p_info.packets_sent ∧
    (udma_unprepare_after_dma p_info).1.packets_rcvd = p_info.packets_rcvd := by
  simp [udma_unprepare_after_dma]

/-- The completion callback does not touch the packet counters. -/
theorem after_wait_counters (env : CallEnv) (p_info : udma_drvdata) :
    (after_wait env p_info).1.packets_sent = p_info.packets_sent ∧
    (after_wait env p_info).1.packets_rcvd = p_info.packets_rcvd := by
  simp only [after_wait, udma_dmaengine_callback_func]
  split_ifs <;> simp

/-- After the teardown the state is `DMA_IDLE` and the descriptor is cleared. -/
theorem unprepare_clears (p_info : udma_drvdata) :
    (udma_unprepare_after_dma p_info).1.state = DMA_IDLE ∧
    (udma_unprepare_after_dma p_info).1.inflight.pinned_pages = false ∧
    (udma_unprepare_after_dma p_info).1.inflight.table_allocated = false ∧
    (udma_unprepare_after_dma p_info).1.inflight.pages_pinned = false ∧
    (udma_unprepare_after_dma p_info).1.inflight.dma_mapped = false := by
  simp [udma_unprepare_after_dma]

/-- After the completion callback the state is not `DMA_IN_FLIGHT`. -/
theorem callback_leaves_in_flight (p_info : udma_drvdata) :
    (udma_dmaengine_callback_func p_info).1.state ≠ DMA_IN_FLIGHT := by
  unfold udma_dmaengine_callback_func
  split_ifs with h
  · simp
  · exact h

/-- What `udma_prepare_for_dma` leaves alone: it makes no `dmaengine_terminate_all` call and
does not touch the packet counters. -/
theorem prepare_frame (c : Config) (hw : Platform) (s : udma_drvdata) (userbuf count : Nat)
    (r : Outcome) (h : udma_prepare_for_dma c hw s userbuf count = some r) :
    Ev.dmaengine_terminate_all ∉ r.trace ∧
    r.p_info.packets_sent = s.packets_sent ∧ r.p_info.packets_rcvd = s.packets_rcvd := by
  unfold udma_prepare_for_dma at h
  simp only [err_out] at h
  split_ifs at h <;> simp only [Option.some.injEq] at h <;> subst h <;>
    refine ⟨?_, ?_, ?_⟩ <;>
    simp [unprepare_trace_no_terminate, (unprepare_counters _).1, (unprepare_counters _).2]

/-- The result of `udma_read` when the call gets past the wait and re-takes the semaphore. -/
theorem udma_read_past_wait (c : Config) (env : CallEnv) (rv_init : Int) (s : udma_drvdata)
    (userbuf count : Nat) (prep : Outcome)
    (ha : count % c.UDMA_ALIGN_BYTES = 0) (hd : env.down_interruptible_rv = 0)
    (hacc : s.accepting ≠ 0)
    (hp : udma_prepare_for_dma c env.hw s userbuf count = some prep) (hrv : prep.rv = 0)
    (ht : env.down_timeout_rv = 0) :
    udma_read c env rv_init s userbuf count
      = some
          { p_info := (udma_unprepare_after_dma (after_wait env prep.p_info).1).1
            rv := if (after_wait env prep.p_info).1.state = DMA_IN_FLIGHT
                    ∧ -ERESTARTSYS = env.wait_rv then env.wait_rv else rv_init
            trace := [Ev.down_interruptible 0] ++ prep.trace ++ [Ev.up]
              ++ (after_wait env prep.p_info).2
              ++ [Ev.wait_event_interruptible env.wait_rv, Ev.down_timeout 0]
              ++ (if (after_wait env prep.p_info).1.state = DMA_IN_FLIGHT
                    ∧ -ERESTARTSYS = env.wait_rv then [Ev.dmaengine_terminate_all] else [])
              ++ (udma_unprepare_after_dma (after_wait env prep.p_info).1).2 ++ [Ev.up] } := by
  unfold udma_read
  simp only [ha, hd, hp, hrv, ht, ne_eq, not_true_eq_false, if_false, hacc]
  split_ifs <;> simp_all

/-- C7: cancellation.  In `udma_read` and in `udma_write`, once the call has submitted its
transfer (`udma_prepare_for_dma` returned 0) and re-taken the semaphore,
`dmaengine_terminate_all` is issued iff the state is still `DMA_IN_FLIGHT` and the wait
returned `-ERESTARTSYS`; in that case it is issued right before the teardown and the call
returns `-ERESTARTSYS`; in both cases `udma_unprepare_after_dma` runs last (only the final `up`
follows it) and the call returns with `state = DMA_IDLE`, `pinned_pages = NULL` and the
flags `table_allocated`, `pages_pinned`, `dma_mapped` clear. -/
theorem C7_cancellation (c : Config) (env : CallEnv) (rv_init : Int) (s : udma_drvdata)
    (userbuf count : Nat) (prep : Outcome)
    (ha : count % c.UDMA_ALIGN_BYTES = 0) (hd : env.down_interruptible_rv = 0)
    (hacc : s.accepting ≠ 0)
    (hp : udma_prepare_for_dma c env.hw s userbuf count = some prep) (hrv : prep.rv = 0)
    (ht : env.down_timeout_rv = 0) :
    ∀ r : Option Outcome,
      (r = udma_read c env rv_init s userbuf count ∨ r = udma_write c env s userbuf count) →
      ∃ o : Outcome, r = some o ∧
        (Ev.dmaengine_terminate_all ∈ o.trace ↔
          ((after_wait env prep.p_info).1.state = DMA_IN_FLIGHT ∧ env.wait_rv = -ERESTARTSYS)) ∧
        (((after_wait env prep.p_info).1.state = DMA_IN_FLIGHT ∧ env.wait_rv = -ERESTARTSYS) →
          o.rv = -ERESTARTSYS ∧
          ([Ev.dmaengine_terminate_all]
            ++ (udma_unprepare_after_dma (after_wait env prep.p_info).1).2 ++ [Ev.up])
            <:+ o.trace) ∧
        ((udma_unprepare_after_dma (after_wait env prep.p_info).1).2 ++ [Ev.up]) <:+ o.trace ∧
        o.p_info = (udma_unprepare_after_dma (after_wait env prep.p_info).1).1 ∧
        o.p_info.state = DMA_IDLE ∧
        o.p_info.inflight.pinned_pages = false ∧
        o.p_info.inflight.table_allocated = false ∧
        o.p_info.inflight.pages_pinned = false ∧
        o.p_info.inflight.dma_mapped = false := by
  have key : ∀ rv0 : Int, ∃ o : Outcome, udma_read c env rv0 s userbuf count = some o ∧
      (Ev.dmaengine_terminate_all ∈ o.trace ↔
        ((after_wait env prep.p_info).1.state = DMA_IN_FLIGHT ∧ env.wait_rv = -ERESTARTSYS)) ∧
      (((after_wait env prep.p_info).1.state = DMA_IN_FLIGHT ∧ env.wait_rv = -ERESTARTSYS) →
        o.rv = -ERESTARTSYS ∧
        ([Ev.dmaengine_terminate_all]
          ++ (udma_unprepare_after_dma (after_wait env prep.p_info).1).2 ++ [Ev.up])
          <:+ o.trace) ∧
      ((udma_unprepare_after_dma (after_wait env prep.p_info).1).2 ++ [Ev.up]) <:+ o.trace ∧
      o.p_info = (udma_unprepare_after_dma (after_wait env prep.p_info).1).1 ∧
      o.p_info.state = DMA_IDLE ∧
      o.p_info.inflight.pinned_pages = false ∧
      o.p_info.inflight.table_allocated = false ∧
      o.p_info.inflight.pages_pinned = false ∧
      o.p_info.inflight.dma_mapped = false := by
    intro rv0
    refine ⟨_, udma_read_past_wait c env rv0 s userbuf count prep ha hd hacc hp hrv ht, ?_⟩
    have hnt1 := (prepare_frame c env.hw s userbuf count prep hp).1
    have hnt2 := after_wait_trace_no_terminate env prep.p_info
    have hnt3 := unprepare_trace_no_terminate (after_wait env prep.p_info).1
    have hcl := unprepare_clears (after_wait env prep.p_info).1
    refine ⟨?_, ?_, ?_, rfl, hcl.1, hcl.2.1, hcl.2.2.1, hcl.2.2.2.1, hcl.2.2.2.2⟩
    · dsimp only
      by_cases hc : (after_wait env prep.p_info).1.state = DMA_IN_FLIGHT
          ∧ -ERESTARTSYS = env.wait_rv
      · rw [if_pos hc]
        exact ⟨fun _ => ⟨hc.1, hc.2.symm⟩, fun _ => by simp⟩
      · rw [if_neg hc]
        constructor
        · intro hmem
          simp [hnt1, hnt2, hnt3] at hmem
        · intro h2
          exact absurd ⟨h2.1, h2.2.symm⟩ hc
    · intro hc
      have hc2 : (after_wait env prep.p_info).1.state = DMA_IN_FLIGHT
          ∧ -ERESTARTSYS = env.wait_rv := ⟨hc.1, hc.2.symm⟩
      dsimp only
      rw [if_pos hc2, if_pos hc2]
      refine ⟨hc.2, ?_⟩
      refine ⟨[Ev.down_interruptible 0] ++ prep.trace ++ [Ev.up]
        ++ (after_wait env prep.p_info).2
        ++ [Ev.wait_event_interruptible env.wait_rv, Ev.down_timeout 0], ?_⟩
      simp only [List.append_assoc]
    · refine ⟨[Ev.down_interruptible 0] ++ prep.trace ++ [Ev.up]
          ++ (after_wait env prep.p_info).2
          ++ [Ev.wait_event_interruptible env.wait_rv, Ev.down_timeout 0]
          ++ (if (after_wait env prep.p_info).1.state = DMA_IN_FLIGHT
                ∧ -ERESTARTSYS = env.wait_rv then [Ev.dmaengine_terminate_all] else []), ?_⟩
      simp
  intro r hr
  rcases hr with hr | hr
  · rw [hr]; exact key rv_init
  · rw [hr, udma_write_eq_read]; exact key (to_ssize c count)

/-- C7 (witness): a one-page write on which every service succeeds, the hardware does not
complete and a signal ends the wait: `dmaengine_terminate_all` is issued and the call returns
`-ERESTARTSYS` with the session idle. -/
theorem C7_cancellation_witness :
    ∃ o : Outcome,
      udma_write zynq (env_signal 1) (init_session UDMA_CPU_TO_DEV) 0 4096 = some o ∧
      Ev.dmaengine_terminate_all ∈ o.trace ∧ o.rv = -ERESTARTSYS ∧
      o.p_info.state = DMA_IDLE ∧ o.p_info.inflight.pinned_pages = false := by
  obtain ⟨o, ho, h1, h2, _, _, h5, h6, _⟩ :=
    C7_cancellation zynq (env_signal 1) 0 (init_session UDMA_CPU_TO_DEV) 0 4096
      ((udma_prepare_for_dma zynq (hw_ok 1) (init_session UDMA_CPU_TO_DEV) 0 4096).get
        (by decide))
      (by decide) (by decide) (by decide) (by simp [env_signal]) (by decide) (by decide)
      (udma_write zynq (env_signal 1) (init_session UDMA_CPU_TO_DEV) 0 4096) (Or.inr rfl)
  have hc : (after_wait (env_signal 1)
      ((udma_prepare_for_dma zynq (hw_ok 1) (init_session UDMA_CPU_TO_DEV) 0 4096).get
        (by decide)).p_info).1.state = DMA_IN_FLIGHT ∧
      (env_signal 1).wait_rv = -ERESTARTSYS := by decide
  exact ⟨o, ho, h1.2 hc, (h2 hc).1, h5, h6⟩

/-- C8 (counterexample): a one-page write on which every service succeeds and the completion
callback ends the wait returns 4096, and `packets_sent` is 0 before and 0 after the call, not
1 larger; likewise `packets_rcvd` for the corresponding read. -/
theorem C8_packet_counter_not_incremented :
    (init_session UDMA_CPU_TO_DEV).packets_sent = 0 ∧
    (udma_write zynq (env_ok 1) (init_session UDMA_CPU_TO_DEV) 0 4096).map
        (fun r => (r.rv, r.p_info.packets_sent)) = some (4096, 0) ∧
    (udma_write zynq (env_ok 1) (init_session UDMA_CPU_TO_DEV) 0 4096).map
        (fun r => decide (r.p_info.packets_sent = (init_session UDMA_CPU_TO_DEV).packets_sent + 1))
      = some false ∧
    (init_session UDMA_DEV_TO_CPU).packets_rcvd = 0 ∧
    (udma_read zynq (env_ok 1) 4096 (init_session UDMA_DEV_TO_CPU) 0 4096).map
        (fun r => decide (r.p_info.packets_rcvd = (init_session UDMA_DEV_TO_CPU).packets_rcvd + 1))
      = some false := by
  decide

/-- C8 (amended): for every transfer whose setup succeeds (`udma_prepare_for_dma` returns 0) and
whose wait ends because the completion callback fired, and which re-takes the semaphore, `udma_write` returns exactly `count` when `count` is at most `SSIZE_MAX`, and
both `udma_read` and `udma_write` leave `packets_sent` and `packets_rcvd` as they were. -/
theorem C8_success_result (c : Config) (env : CallEnv) (rv_init : Int) (s : udma_drvdata)
    (userbuf count : Nat) (prep : Outcome)
    (ha : count % c.UDMA_ALIGN_BYTES = 0) (hd : env.down_interruptible_rv = 0)
    (hacc : s.accepting ≠ 0)
    (hp : udma_prepare_for_dma c env.hw s userbuf count = some prep) (hrv : prep.rv = 0)
    (hcb : env.callback_fired = true) (ht : env.down_timeout_rv = 0) (hcount : 2 * count < 2 ^ c.SIZE_BITS) :
    (∃ o : Outcome, udma_write c env s userbuf count = some o ∧ o.rv = (count : Int) ∧
      o.p_info.packets_sent = s.packets_sent ∧ o.p_info.packets_rcvd = s.packets_rcvd) ∧
    (∃ o : Outcome, udma_read c env rv_init s userbuf count = some o ∧
      o.p_info.packets_sent = s.packets_sent ∧ o.p_info.packets_rcvd = s.packets_rcvd) := by
  have hpf := prepare_frame c env.hw s userbuf count prep hp
  have hu := unprepare_counters (after_wait env prep.p_info).1
  have hw2 := after_wait_counters env prep.p_info
  have hnc : ¬ ((after_wait env prep.p_info).1.state = DMA_IN_FLIGHT
      ∧ -ERESTARTSYS = env.wait_rv) := by
    intro h
    exact callback_leaves_in_flight prep.p_info (by
      have h1 := h.1
      unfold after_wait at h1
      rw [if_pos hcb] at h1
      exact h1)
  have hss : to_ssize c count = (count : Int) := by
    unfold to_ssize
    have hlt : count < 2 ^ c.SIZE_BITS := by omega
    rw [Nat.mod_eq_of_lt hlt, if_pos hcount]
  have hwr := udma_read_past_wait c env (to_ssize c count) s userbuf count prep ha hd hacc hp
    hrv ht
  rw [← udma_write_eq_read] at hwr
  constructor
  · refine ⟨_, hwr, ?_, ?_, ?_⟩
    · dsimp only
      rw [if_neg hnc, hss]
    · dsimp only
      rw [hu.1, hw2.1, hpf.2.1]
    · dsimp only
      rw [hu.2, hw2.2, hpf.2.2]
  · refine ⟨_, udma_read_past_wait c env rv_init s userbuf count prep ha hd hacc hp hrv ht,
      ?_, ?_⟩
    · dsimp only
      rw [hu.1, hw2.1, hpf.2.1]
    · dsimp only
      rw [hu.2, hw2.2, hpf.2.2]

/-- C8 (witness): the amended success result for a one-page write on a 32-bit kernel. -/
theorem C8_success_result_witness :
    ∃ o : Outcome,
      udma_write zynq (env_ok 1) (init_session UDMA_CPU_TO_DEV) 0 4096 = some o ∧
      o.rv = 4096 ∧ o.p_info.packets_sent = 0 ∧ o.p_info.packets_rcvd = 0 :=
  (C8_success_result zynq (env_ok 1) 0 (init_session UDMA_CPU_TO_DEV) 0 4096
    ((udma_prepare_for_dma zynq (hw_ok 1) (init_session UDMA_CPU_TO_DEV) 0 4096).get
      (by decide))
    (by decide) (by decide) (by decide) (by simp [env_ok]) (by decide) (by decide) (by decide)
    (by decide)).1

/-- C9 (violated by the code): a 128-byte write whose transfer is submitted and which then
fails to re-take the semaphore (`down_timeout` returns non-zero) returns 128, the byte
count of a successful transfer, both when a signal ended the wait and when the completion
callback did.  No teardown runs: `pinned_pages` stays non-NULL and no `kfree` is made. -/
theorem C9_stall_returns_byte_count :
    (udma_write zynq (env_stall 1) (init_session UDMA_CPU_TO_DEV) 0 128).map
        (fun r => (r.rv, r.p_info.state, r.p_info.inflight.pinned_pages,
          decide (Ev.kfree ∈ r.trace)))
      = some (128, DMA_IN_FLIGHT, true, false) ∧
    (udma_write zynq { env_ok 1 with down_timeout_rv := -62 }
        (init_session UDMA_CPU_TO_DEV) 0 128).map
        (fun r => (r.rv, r.p_info.state, r.p_info.inflight.pinned_pages,
          decide (Ev.kfree ∈ r.trace)))
      = some (128, DMA_COMPLETING, true, false) := by
  decide

/-- C10 (counterexample): with an alignment of 4 bytes, a write of `count = 0` at page offset 20
is not rejected: `udma_prepare_for_dma` is entered, one page is pinned, the transfer is
submitted, and the call returns 0, not `-EINVAL`; the same holds for a read. -/
theorem C10_zero_count_not_rejected :
    (udma_write word_aligned (env_ok 1) (init_session UDMA_CPU_TO_DEV) 20 0).map
        (fun r => (r.rv, decide (Ev.get_user_pages_fast 20 1 false 1 ∈ r.trace),
          decide (Ev.dmaengine_submit 1 ∈ r.trace)))
      = some (0, true, true) ∧
    (udma_read word_aligned (env_ok 1) 0 (init_session UDMA_DEV_TO_CPU) 20 0).map
        (fun r => (decide (r.rv = -EINVAL),
          decide (Ev.get_user_pages_fast 20 1 true 1 ∈ r.trace),
          decide (Ev.dmaengine_submit 1 ∈ r.trace)))
      = some (false, true, true) ∧
    -EINVAL ≠ 0 := by
  decide

/-- C10 (amended): for every `count` that is not a multiple of `UDMA_ALIGN_BYTES` (a positive
parameter), `udma_read` and `udma_write` return `-EINVAL`, make no kernel call at all (so
`udma_prepare_for_dma` is not entered and no page is pinned) and leave the session unchanged. -/
theorem C10_misaligned_rejected (c : Config) (env : CallEnv) (rv_init : Int)
    (s : udma_drvdata) (userbuf count : Nat)
    (_hpos : 0 < c.UDMA_ALIGN_BYTES) (hmis : ¬ c.UDMA_ALIGN_BYTES ∣ count) :
    udma_read c env rv_init s userbuf count
      = some { p_info := s, rv := -EINVAL, trace := [] } ∧
    udma_write c env s userbuf count
      = some { p_info := s, rv := -EINVAL, trace := [] } := by
  have hne : 0 ≠ count % c.UDMA_ALIGN_BYTES := by
    intro h
    exact hmis (Nat.dvd_of_mod_eq_zero h.symm)
  constructor
  · unfold udma_read
    rw [if_pos hne]
  · rw [udma_write_eq_read]
    unfold udma_read
    rw [if_pos hne]

/-- C10 (witness): a read and a write of 6 bytes under an alignment of 4 bytes. -/
theorem C10_misaligned_rejected_witness :
    (0 < word_aligned.UDMA_ALIGN_BYTES ∧ ¬ word_aligned.UDMA_ALIGN_BYTES ∣ 6) ∧
    udma_read word_aligned (env_ok 1) 0 (init_session UDMA_DEV_TO_CPU) 0 6
      = some { p_info := init_session UDMA_DEV_TO_CPU, rv := -EINVAL, trace := [] } ∧
    udma_write word_aligned (env_ok 1) (init_session UDMA_CPU_TO_DEV) 0 6
      = some { p_info := init_session UDMA_CPU_TO_DEV, rv := -EINVAL, trace := [] } :=
  ⟨by decide,
   (C10_misaligned_rejected word_aligned (env_ok 1) 0 (init_session UDMA_DEV_TO_CPU) 0 6
      (by decide) (by decide)).1,
   (C10_misaligned_rejected word_aligned (env_ok 1) 0 (init_session UDMA_CPU_TO_DEV) 0 6
      (by decide) (by decide)).2⟩

/-! ## Closed session, completion notification, session invariant -/

/-- C11: closed session.  For every buffer and every count that passes the alignment test
(every count under `UDMA_ALIGN_BYTES (1)` of `udma.h`), when the semaphore has been taken and
the `accepting` flag is cleared, `udma_read` and `udma_write` return `-EBADF`; the only kernel
calls made are `down_interruptible` and the `up` that releases the semaphore again, so
`udma_prepare_for_dma` is not entered and nothing is pinned, mapped, submitted or terminated;
the session (state and in-flight descriptor included) is unchanged. -/
theorem C11_closed_session (c : Config) (env : CallEnv) (rv_init : Int) (s : udma_drvdata)
    (userbuf count : Nat)
    (hal : count % c.UDMA_ALIGN_BYTES = 0) (hd : env.down_interruptible_rv = 0)
    (hcl : s.accepting = 0) :
    udma_read c env rv_init s userbuf count
      = some { p_info := s, rv := -EBADF, trace := [Ev.down_interruptible 0, Ev.up] } ∧
    udma_write c env s userbuf count
      = some { p_info := s, rv := -EBADF, trace := [Ev.down_interruptible 0, Ev.up] } := by
  have key : ∀ rv0 : Int, udma_read c env rv0 s userbuf count
      = some { p_info := s, rv := -EBADF, trace := [Ev.down_interruptible 0, Ev.up] } := by
    intro rv0
    unfold udma_read
    simp [hal, hd, hcl]
  exact ⟨key rv_init, by rw [udma_write_eq_read]; exact key _⟩

/-- C11 (witness): a read and a write of 128 bytes on a session that has been shut down. -/
theorem C11_closed_session_witness :
    (128 % zynq.UDMA_ALIGN_BYTES = 0 ∧ (env_ok 1).down_interruptible_rv = 0 ∧
      (closed_session UDMA_DEV_TO_CPU).accepting = 0) ∧
    udma_read zynq (env_ok 1) 0 (closed_session UDMA_DEV_TO_CPU) 0 128
      = some { p_info := closed_session UDMA_DEV_TO_CPU, rv := -EBADF,
               trace := [Ev.down_interruptible 0, Ev.up] } ∧
    udma_write zynq (env_ok 1) (closed_session UDMA_CPU_TO_DEV) 0 128
      = some { p_info := closed_session UDMA_CPU_TO_DEV, rv := -EBADF,
               trace := [Ev.down_interruptible 0, Ev.up] } :=
  ⟨by decide,
   (C11_closed_session zynq (env_ok 1) 0 (closed_session UDMA_DEV_TO_CPU) 0 128
      (by decide) (by decide) (by decide)).1,
   (C11_closed_session zynq (env_ok 1) 0 (closed_session UDMA_CPU_TO_DEV) 0 128
      (by decide) (by decide) (by decide)).2⟩

/-- C12: completion notification step.  For every session, `udma_dmaengine_callback_func`
signals the wait queue iff the state is `DMA_IN_FLIGHT` on entry, and changes the state iff
the state is `DMA_IN_FLIGHT` on entry: from `DMA_IN_FLIGHT` the state becomes `DMA_COMPLETING`
with one `wake_up_interruptible`; from `DMA_IDLE` and from `DMA_COMPLETING` the session is
returned as it was with no call made.  In every case no field of the in-flight descriptor (nor
any other field but `state`) changes, and run after a teardown it is a no-op. -/
theorem C12_completion_notification (p_info : udma_drvdata) :
    (Ev.wake_up_interruptible ∈ (udma_dmaengine_callback_func p_info).2
      ↔ p_info.state = DMA_IN_FLIGHT) ∧
    ((udma_dmaengine_callback_func p_info).1.state ≠ p_info.state
      ↔ p_info.state = DMA_IN_FLIGHT) ∧
    udma_dmaengine_callback_func { p_info with state := DMA_IN_FLIGHT }
      = ({ p_info with state := DMA_COMPLETING }, [Ev.wake_up_interruptible]) ∧
    udma_dmaengine_callback_func { p_info with state := DMA_IDLE }
      = ({ p_info with state := DMA_IDLE }, []) ∧
    udma_dmaengine_callback_func { p_info with state := DMA_COMPLETING }
      = ({ p_info with state := DMA_COMPLETING }, []) ∧
    (udma_dmaengine_callback_func p_info).1.inflight = p_info.inflight ∧
    (udma_dmaengine_callback_func p_info).1
      = { p_info with state := (udma_dmaengine_callback_func p_info).1.state } ∧
    udma_dmaengine_callback_func (udma_unprepare_after_dma p_info).1
      = ((udma_unprepare_after_dma p_info).1, []) := by
  refine ⟨?_, ?_, ?_, ?_, ?_, ?_, ?_, ?_⟩
  · unfold udma_dmaengine_callback_func
    split_ifs with h <;> simp [h]
  · unfold udma_dmaengine_callback_func
    split_ifs with h <;> simp [h]
  · simp [udma_dmaengine_callback_func]
  · simp [udma_dmaengine_callback_func]
  · simp [udma_dmaengine_callback_func]
  · unfold udma_dmaengine_callback_func
    split_ifs <;> rfl
  · unfold udma_dmaengine_callback_func
    split_ifs <;> rfl
  · simp [udma_dmaengine_callback_func, udma_unprepare_after_dma]

/-- The two ways `udma_prepare_for_dma` returns: every service succeeded, it returns 0 with the
transfer in flight and the descriptor attached; or some service failed, and it returns after
the teardown with the state `DMA_IDLE` and the descriptor cleared. -/
theorem prepare_cases (c : Config) (hw : Platform) (s : udma_drvdata) (userbuf count : Nat)
    (r : Outcome) (h : udma_prepare_for_dma c hw s userbuf count = some r) :
    (setup_succeeds c hw userbuf count ∧ r.rv = 0 ∧ r.p_info.state = DMA_IN_FLIGHT ∧
      r.p_info.inflight.pinned_pages = true) ∨
    (¬ setup_succeeds c hw userbuf count ∧ r.p_info.state = DMA_IDLE ∧
      r.p_info.inflight.pinned_pages = false ∧ r.p_info.inflight.table_allocated = false ∧
      r.p_info.inflight.pages_pinned = false ∧ r.p_info.inflight.dma_mapped = false ∧
      r.p_info.inflight.dma_started = false) := by
  unfold udma_prepare_for_dma at h
  simp only [err_out] at h
  split_ifs at h with h0 h1 h2 h3 h4 h5 h6 <;> simp only [Option.some.injEq] at h <;> subst h
  · right
    simp [setup_succeeds, udma_unprepare_after_dma, zero_inflight] at h1 ⊢
    intro hk
    simp [hk] at h1
  · right
    simp [setup_succeeds, udma_unprepare_after_dma, zero_inflight]
    intro _ hk
    exact absurd hk h2
  · right
    simp [setup_succeeds, udma_unprepare_after_dma, zero_inflight]
    intro _ _ hk
    exact absurd hk h3
  · right
    simp [setup_succeeds, udma_unprepare_after_dma, zero_inflight]
    intro _ _ _ hk
    exact absurd hk h4
  · right
    simp [setup_succeeds, udma_unprepare_after_dma, zero_inflight] at h5 ⊢
    intro _ _ _ _ hk
    simp [hk] at h5
  · right
    simp [setup_succeeds, udma_unprepare_after_dma, zero_inflight]
    intro _ _ _ _ _
    exact h6
  · left
    simp only [Bool.not_eq_true', Bool.not_eq_false, ne_eq, not_not, Bool.not_eq_true] at h1 h5
    simp at h2 h3 h4
    refine ⟨⟨?_, h2, h3, h4, ?_, h6⟩, rfl, rfl, rfl⟩
    · simpa using h1
    · simpa using h5

/-- Each lifecycle operation that returns preserves the session invariant. -/
theorem apply_op_invariant (c : Config) (s s1 : udma_drvdata) (op : Op)
    (hinv : descriptor_invariant s) (h : apply_op c s op = some s1) :
    descriptor_invariant s1 := by
  unfold descriptor_invariant at hinv ⊢
  cases op with
  | prepare hw userbuf count =>
    simp only [apply_op, Option.map_eq_some'] at h
    obtain ⟨r, hr, rfl⟩ := h
    rcases prepare_cases c hw s userbuf count r hr with hc | hc
    · simp [hc.2.2.1, hc.2.2.2]
    · simp [hc.2.1, hc.2.2.1]
  | callback =>
    simp only [apply_op, Option.some.injEq] at h
    subst h
    unfold udma_dmaengine_callback_func
    split_ifs with hs
    · simp only [hs, true_or, iff_true] at hinv
      simp [hinv]
    · exact hinv
  | unprepare =>
    simp only [apply_op, Option.some.injEq] at h
    subst h
    simp [udma_unprepare_after_dma]

/-- The session invariant holds after every sequence of operations that starts in a state
satisfying it. -/
theorem run_ops_invariant (c : Config) (ops : List Op) :
    ∀ s0 s : udma_drvdata, descriptor_invariant s0 → run_ops c s0 ops = some s →
      descriptor_invariant s := by
  induction ops with
  | nil =>
    intro s0 s h0 h
    simp only [run_ops, Option.some.injEq] at h
    subst h
    exact h0
  | cons op rest ih =>
    intro s0 s h0 h
    simp only [run_ops] at h
    cases hop : apply_op c s0 op with
    | none => rw [hop] at h; cases h
    | some s1 =>
      rw [hop] at h
      exact ih s1 s (apply_op_invariant c s0 s1 op h0 hop) h

/-- C13: state/descriptor invariant.  Starting from a session with `state = DMA_IDLE` and
`inflight.pinned_pages = NULL`, in every state reached by any sequence of the operations
`udma_prepare_for_dma` (with any platform answers, so succeeding or failing at any step),
`udma_dmaengine_callback_func` and `udma_unprepare_after_dma`, observed after each operation
has returned, `pinned_pages` is non-NULL iff the state is `DMA_IN_FLIGHT` or
`DMA_COMPLETING`.  From such a state `udma_prepare_for_dma` returns whenever the state is
`DMA_IDLE`, and every `udma_prepare_for_dma` that fails (returns non-zero, or had any service
fail, a rejected submission included) returns with `state = DMA_IDLE`, `pinned_pages = NULL`
and all four progress flags clear. -/
theorem C13_descriptor_invariant (c : Config) (s0 s : udma_drvdata) (ops : List Op)
    (hst : s0.state = DMA_IDLE) (hpp : s0.inflight.pinned_pages = false)
    (hrun : run_ops c s0 ops = some s) :
    (s.inflight.pinned_pages = true ↔ (s.state = DMA_IN_FLIGHT ∨ s.state = DMA_COMPLETING)) ∧
    (∀ (hw : Platform) (userbuf count : Nat), s.state = DMA_IDLE →
      (udma_prepare_for_dma c hw s userbuf count).isSome = true) ∧
    (∀ (hw : Platform) (userbuf count : Nat) (r : Outcome),
      udma_prepare_for_dma c hw s userbuf count = some r →
      (r.rv ≠ 0 ∨ ¬ setup_succeeds c hw userbuf count ∨ hw.cookie < DMA_MIN_COOKIE) →
      r.p_info.state = DMA_IDLE ∧ r.p_info.inflight.pinned_pages = false ∧
      r.p_info.inflight.table_allocated = false ∧ r.p_info.inflight.pages_pinned = false ∧
      r.p_info.inflight.dma_mapped = false ∧ r.p_info.inflight.dma_started = false) := by
  have h0 : descriptor_invariant s0 := by
    unfold descriptor_invariant
    simp [hst, hpp]
  have hinv := run_ops_invariant c ops s0 s h0 hrun
  unfold descriptor_invariant at hinv
  refine ⟨hinv, ?_, ?_⟩
  · intro hw userbuf count hidle
    have hnp : s.inflight.pinned_pages = false := by
      cases hp : s.inflight.pinned_pages with
      | false => rfl
      | true =>
        have := hinv.1 hp
        rw [hidle] at this
        rcases this with h | h <;> cases h
    unfold udma_prepare_for_dma
    rw [hnp]
    simp only [Bool.false_eq_true, if_false]
    split_ifs <;> rfl
  · intro hw userbuf count r hr hfail
    rcases prepare_cases c hw s userbuf count r hr with hc | hc
    · rcases hfail with hf | hf | hf
      · exact absurd hc.2.1 hf
      · exact absurd hc.1 hf
      · exact absurd hf hc.1.2.2.2.2.2
    · exact hc.2

/-- C13 (witness): after a rejected submission, a successful setup and the completion
notification, the descriptor is attached and the state is `DMA_COMPLETING`. -/
theorem C13_descriptor_invariant_witness :
    ((init_session UDMA_DEV_TO_CPU).state = DMA_IDLE ∧
      (init_session UDMA_DEV_TO_CPU).inflight.pinned_pages = false) ∧
    ∃ s : udma_drvdata, run_ops zynq (init_session UDMA_DEV_TO_CPU) lifecycle_ops = some s ∧
      s.state = DMA_COMPLETING ∧
      (s.inflight.pinned_pages = true ↔ (s.state = DMA_IN_FLIGHT ∨ s.state = DMA_COMPLETING)) :=
  ⟨by decide,
   (run_ops zynq (init_session UDMA_DEV_TO_CPU) lifecycle_ops).get (by decide),
   (Option.some_get _).symm, by decide,
   (C13_descriptor_invariant zynq (init_session UDMA_DEV_TO_CPU)
      ((run_ops zynq (init_session UDMA_DEV_TO_CPU) lifecycle_ops).get (by decide))
      lifecycle_ops (by decide) (by decide) (Option.some_get _).symm).1⟩

end Udma
